import Mathlib

/-!
Shallow embedding of the git-auto-sync daemon (src/src/main.rs).

The program is a synchronization loop over one git repository: on each tick it
runs `commit` (snapshot local changes), `pull` (fetch + merge-analysis driven
integration) and `push` (publish). The git2 library calls are modelled as
operations on an explicit `Repository` state record; failure injection flags
model object-store / network failures of the underlying library calls, and the
lines the program prints are recorded structurally in a `log` field.
-/

/-- Bytes of an ASCII string (used for the sentinel literals, which are ASCII,
so char codes coincide with UTF-8 bytes). -/
def strBytes (s : String) : List Nat := s.data.map (fun c => c.toNat)

/-- A UTF-8 continuation byte, 0x80-0xBF. -/
def contByte (b : Nat) : Bool := 0x80 ≤ b && b ≤ 0xBF

/-- Strict UTF-8 validity of a byte sequence, as checked by Rust
String::from_utf8 (rejects overlong encodings and surrogates). -/
def validUtf8 : List Nat → Bool
  | [] => true
  | b :: rest =>
    if b ≤ 0x7F then validUtf8 rest
    else if 0xC2 ≤ b && b ≤ 0xDF then
      match rest with
      | b2 :: rest2 => contByte b2 && validUtf8 rest2
      | [] => false
    else if b == 0xE0 then
      match rest with
      | b2 :: b3 :: rest3 => (0xA0 ≤ b2 && b2 ≤ 0xBF) && contByte b3 && validUtf8 rest3
      | _ => false
    else if (0xE1 ≤ b && b ≤ 0xEC) || b == 0xEE || b == 0xEF then
      match rest with
      | b2 :: b3 :: rest3 => contByte b2 && contByte b3 && validUtf8 rest3
      | _ => false
    else if b == 0xED then
      match rest with
      | b2 :: b3 :: rest3 => (0x80 ≤ b2 && b2 ≤ 0x9F) && contByte b3 && validUtf8 rest3
      | _ => false
    else if b == 0xF0 then
      match rest with
      | b2 :: b3 :: b4 :: rest4 =>
          (0x90 ≤ b2 && b2 ≤ 0xBF) && contByte b3 && contByte b4 && validUtf8 rest4
      | _ => false
    else if 0xF1 ≤ b && b ≤ 0xF3 then
      match rest with
      | b2 :: b3 :: b4 :: rest4 =>
          contByte b2 && contByte b3 && contByte b4 && validUtf8 rest4
      | _ => false
    else if b == 0xF4 then
      match rest with
      | b2 :: b3 :: b4 :: rest4 =>
          (0x80 ≤ b2 && b2 ≤ 0x8F) && contByte b3 && contByte b4 && validUtf8 rest4
      | _ => false
    else false

/-- Object identifiers of the content-addressed store (commits and trees);
two equal oids denote identical content. -/
abbrev Oid := Nat

/-- A commit object: immutable node of the commit graph. -/
structure Commit where
  oid : Oid
  parents : List Oid
  tree : Oid
  message : String
deriving Repr, DecidableEq

/-- One side of an index conflict (git2 IndexEntry); only the path matters
to the program. Paths are raw byte sequences, not necessarily valid text. -/
structure IndexEntry where
  path : List Nat
deriving Repr, DecidableEq

/-- An index conflict, with the optional ours/theirs entries
(git2 IndexConflict; the ancestor entry is unused by the program). -/
structure IndexConflict where
  our : Option IndexEntry
  their : Option IndexEntry
deriving Repr, DecidableEq

/-- The staging area: the tree oid its entries would write, plus the conflict
list. Two indexes staging identical content write the same tree oid. -/
structure Index where
  tree : Oid
  conflicts : List IndexConflict
deriving Repr, DecidableEq

/-- git2 Index::has_conflicts. -/
def Index.has_conflicts (i : Index) : Bool := !i.conflicts.isEmpty

/-- A println event of the program, recorded structurally:
plain messages, a reported conflict path (as printed bytes), a printed commit
oid, and the push_update_reference callback's name/status line. -/
inductive LogLine where
  | msg (s : String)
  | conflictPath (bytes : List Nat)
  | commitOid (oid : Oid)
  | refPushed (name : String) (status : Option String)
deriving Repr, DecidableEq

def msgStartingCommit : String := "starting commit..."
def msgEmptyTree : String := "empty tree. skipping..."
def msgStartingPull : String := "starting pull..."
def msgUpToDate : String := "up to date. skipping..."
def msgMerging : String := "merging..."
def msgStartingPush : String := "starting push..."
def msgSync : String := "sync"
def msgMerge : String := "merge"
def sentinelNoConflict : String := "<error_no_conflict>"
def sentinelInvalidPath : String := "<conflict_invalid_path>"
def stepFileOpenUnwrap : String := "file open unwrap"
def stepOutputDeviceUnwrap : String := "output device unwrap"
def stepDecoderUnwrap : String := "decoder unwrap"

/-- git2::Error — carries the message. -/
structure GitError where
  message : String
deriving Repr, DecidableEq

def refNotFoundErr : GitError := { message := "reference not found" }
def objectNotFoundErr : GitError := { message := "object not found" }
def remoteNotFoundErr : GitError := { message := "remote not found" }
def fetchFailedErr : GitError := { message := "fetch failed" }
def pushFailedErr : GitError := { message := "push failed" }
def conflictedIndexErr : GitError := { message := "conflicted index cannot write tree" }
def commitWriteErr : GitError := { message := "commit object write failed" }
def indexWriteErr : GitError := { message := "index write failed" }
def conflictsFoundErr : GitError := { message := "aborting: conflicts found" }
def unknownAnalysisErr : GitError := { message := "Unknown merge analysis result" }

/-- The open repository plus its environment: object store, refs, HEAD, the
staging area, the working tree (as the tree oid staging it yields), the index
the pending three-way merge would produce (the merge driver's outcome, an
input of the model), remote server state, per-ref push statuses the server
would report, and failure-injection flags for the fallible library calls. -/
structure Repository where
  commits : List Commit
  refs : List (String × Oid)
  headRef : String
  index : Index
  workTreeId : Oid
  mergedIndex : Index
  mergeStatePresent : Bool
  originExists : Bool
  serverBranches : List (String × Oid)
  pushStatuses : List (String × Option String)
  nextOid : Oid
  failFetch : Bool
  failPush : Bool
  failCommitWrite : Bool
  failIndexWrite : Bool
  log : List LogLine
deriving Repr, DecidableEq

/-- Reference lookup in a name-to-oid table. -/
def lookupAssoc (l : List (String × Oid)) (name : String) : Option Oid :=
  match l.find? (fun p => p.1 == name) with
  | some p => some p.2
  | none => none

/-- Reference update (create or re-point) in a name-to-oid table. -/
def setAssoc (l : List (String × Oid)) (name : String) (v : Oid) :
    List (String × Oid) :=
  (name, v) :: l.filter (fun p => p.1 != name)

/-- Commit lookup in the object store (peel_to_commit / find_commit). -/
def Repository.findCommit (repo : Repository) (oid : Oid) : Option Commit :=
  repo.commits.find? (fun c => c.oid == oid)

/-- repo.head(): the oid the HEAD branch points at (None when the ref is
missing; head.name() is modelled by the headRef field itself). -/
def Repository.headOid (repo : Repository) : Option Oid :=
  lookupAssoc repo.refs repo.headRef

/-- Append a plain println line to the log. -/
def Repository.logMsg (repo : Repository) (s : String) : Repository :=
  { repo with log := repo.log ++ [LogLine.msg s] }

/-- Oids reachable from an oid through parent edges, with fuel. -/
def reachableFuel (commits : List Commit) : Nat → Oid → List Oid
  | 0, o => [o]
  | n + 1, o =>
    match commits.find? (fun c => c.oid == o) with
    | some c => o :: c.parents.flatMap (fun p => reachableFuel commits n p)
    | none => [o]

/-- anc is an ancestor of (or equal to) desc in the commit graph. -/
def isAncestorOf (commits : List Commit) (anc desc : Oid) : Bool :=
  (reachableFuel commits commits.length desc).contains anc

/-- git2 MergeAnalysis flags used by the program. -/
structure MergeAnalysis where
  up_to_date : Bool
  fast_forward : Bool
  normal : Bool
deriving Repr, DecidableEq

/-- repo.merge_analysis(&[remote]): UP_TO_DATE when the remote commit is
already reachable from HEAD; FASTFORWARD (with NORMAL) when HEAD is an
ancestor of the remote commit; NORMAL alone when the histories diverged. -/
def Repository.mergeAnalysisFor (repo : Repository) (remoteOid : Oid) :
    Except GitError MergeAnalysis :=
  match repo.headOid with
  | none => Except.error refNotFoundErr
  | some h =>
    if isAncestorOf repo.commits remoteOid h then
      Except.ok { up_to_date := true, fast_forward := false, normal := false }
    else if isAncestorOf repo.commits h remoteOid then
      Except.ok { up_to_date := false, fast_forward := true, normal := true }
    else
      Except.ok { up_to_date := false, fast_forward := false, normal := true }

/-- index.write_tree(): errors on a conflicted index, otherwise returns the
tree oid of the staged content. -/
def Repository.writeTree (repo : Repository) : Except GitError Oid :=
  if repo.index.conflicts.isEmpty then Except.ok repo.index.tree
  else Except.error conflictedIndexErr

/-- repo.commit(update_ref, sig, sig, message, tree, parents): writes a commit
object with a fresh oid and re-points update_ref at it; the injected
failCommitWrite flag models an object-store or reference-update failure of
this call. -/
def Repository.doCommit (repo : Repository) (updateRef : String)
    (message : String) (tree : Oid) (parents : List Oid) :
    Repository × Except GitError Oid :=
  if repo.failCommitWrite then (repo, Except.error commitWriteErr)
  else
    let oid := repo.nextOid
    ({ repo with
        commits := repo.commits ++
          [{ oid := oid, parents := parents, tree := tree, message := message }]
        refs := setAssoc repo.refs updateRef oid
        nextOid := repo.nextOid + 1 },
      Except.ok oid)

/-- index.write(): persists the in-memory index; the injected failIndexWrite
flag models a filesystem/object-store failure of this call. -/
def Repository.indexWrite (repo : Repository) : Repository × Except GitError Unit :=
  if repo.failIndexWrite then (repo, Except.error indexWriteErr)
  else (repo, Except.ok ())

/-- get_remote: repo.find_remote of origin (credential callback setup has no
observable effect in the model; push_update_reference printing is modelled at
the push site). -/
def getRemote (repo : Repository) : Except GitError Unit :=
  if repo.originExists then Except.ok () else Except.error remoteNotFoundErr

/-- Name of the remote tracking reference for a branch. -/
def remoteRefName (branch_name : String) : String :=
  "refs/remotes/origin/" ++ branch_name

/-- Name of the local branch reference pushed by the publisher. -/
def headRefName (branch_name : String) : String :=
  "refs/heads/" ++ branch_name

/-- The printed bytes for one conflict, exactly as in the source:
conflict.their.map(path).unwrap_or(Vec::from the no-conflict sentinel), then
String::from_utf8 with the invalid-path sentinel as fallback. On success
from_utf8 keeps the bytes; both sentinel literals are ASCII. -/
def conflictOutBytes (c : IndexConflict) : List Nat :=
  let path :=
    match c.their with
    | some e => e.path
    | none => strBytes sentinelNoConflict
  if validUtf8 path then path else strBytes sentinelInvalidPath

/-- fn commit (main.rs lines 22-48): stage all working-tree paths, diff the
staged tree against the head commit's tree, skip when empty, otherwise write
the tree, create a "sync" commit re-pointing the head branch at it, and
finally persist the index. On error the pair carries the state already
mutated before the failing call, as in the source. -/
def commit (repo : Repository) : Repository × Except GitError Unit :=
  let repo1 := repo.logMsg msgStartingCommit
  match repo1.headOid with
  | none => (repo1, Except.error refNotFoundErr)
  | some headTarget =>
    match repo1.findCommit headTarget with
    | none => (repo1, Except.error objectNotFoundErr)
    | some parent_commit =>
      let repo2 := { repo1 with index := { repo1.index with tree := repo1.workTreeId } }
      if parent_commit.tree == repo2.index.tree then
        (repo2.logMsg msgEmptyTree, Except.ok ())
      else
        match repo2.writeTree with
        | Except.error e => (repo2, Except.error e)
        | Except.ok tree_oid =>
          match repo2.doCommit repo2.headRef msgSync tree_oid [parent_commit.oid] with
          | (repo3, Except.error e) => (repo3, Except.error e)
          | (repo3, Except.ok commit_oid) =>
            let repo4 := { repo3 with log := repo3.log ++ [LogLine.commitOid commit_oid] }
            repo4.indexWrite

/-- The merging branch of fn pull (main.rs lines 89-139), entered when the
analysis is FASTFORWARD or NORMAL: resolve head and its commit, run the merge
driver (the index becomes the merge result and merge state appears on the
repository), report conflicts and abort if any, skip on an empty diff, else
commit the merged tree with parents (previous head, remote commit), message
"merge", and clean up the merge state. -/
def mergingPhase (repo : Repository) (remoteOid : Oid) :
    Repository × Except GitError Unit :=
  let repo3 := repo.logMsg msgMerging
  match repo3.headOid with
  | none => (repo3, Except.error refNotFoundErr)
  | some headTarget =>
    match repo3.findCommit headTarget with
    | none => (repo3, Except.error objectNotFoundErr)
    | some parent_commit =>
      let repo4 := { repo3 with index := repo3.mergedIndex, mergeStatePresent := true }
      if repo4.index.has_conflicts then
        let repo5 := { repo4 with
          log := repo4.log ++
            repo4.index.conflicts.map (fun c => LogLine.conflictPath (conflictOutBytes c)) }
        (repo5, Except.error conflictsFoundErr)
      else
        if parent_commit.tree == repo4.index.tree then
          (repo4.logMsg msgEmptyTree, Except.ok ())
        else
          match repo4.writeTree with
          | Except.error e => (repo4, Except.error e)
          | Except.ok tree_oid =>
            match repo4.findCommit remoteOid with
            | none => (repo4, Except.error objectNotFoundErr)
            | some remote_commit =>
              match repo4.doCommit repo4.headRef msgMerge tree_oid
                  [parent_commit.oid, remote_commit.oid] with
              | (repo5, Except.error e) => (repo5, Except.error e)
              | (repo5, Except.ok commit_oid) =>
                let repo6 := { repo5 with
                  log := repo5.log ++ [LogLine.commitOid commit_oid]
                  mergeStatePresent := false }
                (repo6, Except.ok ())

/-- fn pull (main.rs lines 66-142): fetch the branch (updating the tracking
reference from the server state), find the tracking reference, classify with
merge_analysis, skip when up to date, merge when fast-forward or normal, and
fail with the unknown-analysis error otherwise. -/
def pull (repo : Repository) (branch_name : String) :
    Repository × Except GitError Unit :=
  let repo1 := repo.logMsg msgStartingPull
  match getRemote repo1 with
  | Except.error e => (repo1, Except.error e)
  | Except.ok _ =>
    if repo1.failFetch then (repo1, Except.error fetchFailedErr)
    else
      match lookupAssoc repo1.serverBranches branch_name with
      | none => (repo1, Except.error fetchFailedErr)
      | some serverOid =>
        let repo2 := { repo1 with
          refs := setAssoc repo1.refs (remoteRefName branch_name) serverOid }
        match lookupAssoc repo2.refs (remoteRefName branch_name) with
        | none => (repo2, Except.error refNotFoundErr)
        | some remoteOid =>
          match repo2.mergeAnalysisFor remoteOid with
          | Except.error e => (repo2, Except.error e)
          | Except.ok analysis =>
            if analysis.up_to_date then
              (repo2.logMsg msgUpToDate, Except.ok ())
            else if analysis.fast_forward || analysis.normal then
              mergingPhase repo2 remoteOid
            else
              (repo2, Except.error unknownAnalysisErr)

/-- fn push (main.rs lines 144-156): push the local branch; the
push_update_reference callback prints each updated reference's name and
status and unconditionally returns Ok, so the reported statuses never fail
the push — only a transport failure does. -/
def push (repo : Repository) (branch_name : String) :
    Repository × Except GitError Unit :=
  let repo1 := repo.logMsg msgStartingPush
  match getRemote repo1 with
  | Except.error e => (repo1, Except.error e)
  | Except.ok _ =>
    let _head_ref_name := headRefName branch_name
    if repo1.failPush then (repo1, Except.error pushFailedErr)
    else
      let repo2 := { repo1 with
        log := repo1.log ++ repo1.pushStatuses.map (fun p => LogLine.refPushed p.1 p.2) }
      (repo2, Except.ok ())

/-- fn run (main.rs lines 158-172): one attempt, commit then pull then push,
stopping at the first failing phase. -/
def run (repo : Repository) (branch_name : String) :
    Repository × Except GitError Unit :=
  match commit repo with
  | (r1, Except.error e) => (r1, Except.error e)
  | (r1, Except.ok _) =>
    match pull r1 branch_name with
    | (r2, Except.error e) => (r2, Except.error e)
    | (r2, Except.ok _) => push r2 branch_name

/-- Environment of the failure-alert side effect (main.rs lines 190-201):
whether current_dir succeeds, whether the error.wav asset file opens, whether
a default audio output device exists, whether the decoder accepts the file. -/
structure AlertEnv where
  current_dir_ok : Bool
  file_open_ok : Bool
  output_device_ok : Bool
  decoder_ok : Bool
deriving Repr, DecidableEq

/-- Fate of the failure handler: either it returns control to the scheduler
loop, or an unwrap panics and the process aborts. -/
inductive AlertFate where
  | handled
  | panicked (step : String)
deriving Repr, DecidableEq

/-- The failure-alert side effect as written: current_dir failure is tolerated
by the if-let guard, but File::open, default_output_device and Decoder::new
are each unwrapped, so their failure panics. -/
def playFailureAlert (env : AlertEnv) : AlertFate :=
  if env.current_dir_ok then
    if env.file_open_ok then
      if env.output_device_ok then
        if env.decoder_ok then AlertFate.handled
        else AlertFate.panicked stepDecoderUnwrap
      else AlertFate.panicked stepOutputDeviceUnwrap
    else AlertFate.panicked stepFileOpenUnwrap
  else AlertFate.handled

/-- u32 modulus. -/
def u32Mod : Nat := 4294967296

/-- main.rs line 183: interval_ms = interval_minutes * 1000 * 60 in u32
arithmetic (left-associated, each product reduced mod 2^32). -/
def interval_ms (interval_minutes : Nat) : Nat :=
  interval_minutes * 1000 % u32Mod * 60 % u32Mod

/-- main.rs line 205: the attempt deadline is Duration::from_secs of
interval_ms / 2 (u32 division, the cast to u64 preserving the value) —
that many SECONDS. -/
def attemptDeadlineSecs (interval_minutes : Nat) : Nat :=
  interval_ms interval_minutes / 2

/-- The attempt deadline expressed in milliseconds. -/
def attemptDeadlineMillis (interval_minutes : Nat) : Nat :=
  attemptDeadlineSecs interval_minutes * 1000

/-- Half the configured interval in milliseconds — the deadline the
specification describes. -/
def halfIntervalMillis (interval_minutes : Nat) : Nat :=
  interval_ms interval_minutes / 2

/-! Concrete repositories used below as witnesses and counterexamples. -/

def mainBranch : String := "main"
def mainHeadRef : String := "refs/heads/main"
def fileTxtName : String := "file.txt"
def nonFastForwardStatus : String := "non-fast-forward"

/-- Root commit of the concrete scenarios. -/
def rootCommit : Commit := { oid := 1, parents := [], tree := 10, message := "root" }

/-- A remote commit, child of the root, with a different tree. -/
def remoteChildCommit : Commit :=
  { oid := 2, parents := [1], tree := 20, message := "remote work" }

/-- A local commit, child of the root. -/
def localChildCommit : Commit :=
  { oid := 2, parents := [1], tree := 20, message := "local work" }

/-- A remote commit diverging from the local child (sibling of it). -/
def remoteSiblingCommit : Commit :=
  { oid := 3, parents := [1], tree := 30, message := "remote work" }

/-- A base repository configuration for the concrete scenarios. -/
def baseRepo : Repository :=
  { commits := []
    refs := []
    headRef := mainHeadRef
    index := { tree := 0, conflicts := [] }
    workTreeId := 0
    mergedIndex := { tree := 0, conflicts := [] }
    mergeStatePresent := false
    originExists := true
    serverBranches := []
    pushStatuses := []
    nextOid := 100
    failFetch := false
    failPush := false
    failCommitWrite := false
    failIndexWrite := false
    log := [] }

/-- Fast-forward situation: local head is the root commit 1 and the remote
branch is at commit 2, a child of 1 with a different tree; the merge driver
on such input yields the remote tree with no conflicts. -/
def ffRepo : Repository :=
  { baseRepo with
    commits := [rootCommit, remoteChildCommit]
    refs := [(mainHeadRef, 1)]
    index := { tree := 10, conflicts := [] }
    workTreeId := 10
    mergedIndex := { tree := 20, conflicts := [] }
    serverBranches := [(mainBranch, 2)]
    nextOid := 3 }

/-- The fast-forward situation with an injected failure of the commit/ref
write. -/
def ffFailRepo : Repository := { ffRepo with failCommitWrite := true }

/-- Diverged histories: local head 2 and remote 3 are both children of the
root 1 with different trees; the merge driver produces merged tree 40 with no
conflicts. -/
def divergedRepo : Repository :=
  { baseRepo with
    commits := [rootCommit, localChildCommit, remoteSiblingCommit]
    refs := [(mainHeadRef, 2)]
    index := { tree := 20, conflicts := [] }
    workTreeId := 20
    mergedIndex := { tree := 40, conflicts := [] }
    serverBranches := [(mainBranch, 3)]
    nextOid := 4 }

/-- Diverged histories whose merge result is conflicted: one conflict with a
well-formed theirs path, one with no theirs entry, one whose path bytes are
not valid UTF-8. -/
def conflictRepo : Repository :=
  { divergedRepo with
    mergedIndex :=
      { tree := 40
        conflicts :=
          [ { our := some { path := strBytes fileTxtName }
            , their := some { path := strBytes fileTxtName } }
          , { our := some { path := strBytes fileTxtName }, their := none }
          , { our := none, their := some { path := [255, 254] } } ] } }

/-- A repository whose push reports a non-empty (rejection) status for the
pushed reference while the push call itself succeeds. -/
def pushCexRepo : Repository :=
  { baseRepo with pushStatuses := [(mainHeadRef, some nonFastForwardStatus)] }

/-- A repository with local changes staged relative to head commit 1
(working tree 20 differs from head tree 10). -/
def snapRepo : Repository :=
  { baseRepo with
    commits := [rootCommit]
    refs := [(mainHeadRef, 1)]
    index := { tree := 10, conflicts := [] }
    workTreeId := 20
    nextOid := 2 }

/-- The same repository with an injected failure of the final index write. -/
def snapIndexFailRepo : Repository := { snapRepo with failIndexWrite := true }

/-- A reference just re-pointed looks up at its new target. -/
theorem lookupAssoc_set_self (l : List (String × Oid)) (n : String) (v : Oid) :
    lookupAssoc (setAssoc l n v) n = some v := by
  simp [lookupAssoc, setAssoc]

/-- mergingPhase on a conflict-free merge result with a non-empty diff and a
healthy object store: writes the merged tree, creates the two-parent merge
commit re-pointing the head branch, and clears the merge state. -/
theorem mergingPhase_commit_spec (repo : Repository) (remoteOid h : Oid)
    (pc rc : Commit)
    (hHead : repo.headOid = some h)
    (hPC : repo.findCommit h = some pc)
    (hRC : repo.findCommit remoteOid = some rc)
    (hNoConf : repo.mergedIndex.conflicts = [])
    (hDelta : (pc.tree == repo.mergedIndex.tree) = false)
    (hCW : repo.failCommitWrite = false) :
    mergingPhase repo remoteOid =
      ({ repo with
          index := repo.mergedIndex
          commits := repo.commits ++
            [{ oid := repo.nextOid, parents := [pc.oid, rc.oid],
               tree := repo.mergedIndex.tree, message := msgMerge }]
          refs := setAssoc repo.refs repo.headRef repo.nextOid
          nextOid := repo.nextOid + 1
          mergeStatePresent := false
          log := repo.log ++ [LogLine.msg msgMerging, LogLine.commitOid repo.nextOid] },
        Except.ok ()) := by
  simp only [Repository.headOid] at hHead
  simp only [Repository.findCommit] at hPC hRC
  simp [mergingPhase, Repository.logMsg, Repository.headOid, Repository.findCommit,
    Repository.writeTree, Repository.doCommit, Index.has_conflicts,
    hHead, hPC, hRC, hNoConf, hDelta, hCW]

/-- mergingPhase when the merge result has conflicts: every conflict path is
reported (theirs entry, with the sentinels), no commit is created, the merge
state stays on the repository, and the conflicts-found error is returned. -/
theorem mergingPhase_conflicts_spec (repo : Repository) (remoteOid h : Oid)
    (pc : Commit)
    (hHead : repo.headOid = some h)
    (hPC : repo.findCommit h = some pc)
    (hConf : repo.mergedIndex.conflicts.isEmpty = false) :
    mergingPhase repo remoteOid =
      ({ repo with
          index := repo.mergedIndex
          mergeStatePresent := true
          log := repo.log ++ [LogLine.msg msgMerging] ++
            repo.mergedIndex.conflicts.map
              (fun c => LogLine.conflictPath (conflictOutBytes c)) },
        Except.error conflictsFoundErr) := by
  simp only [Repository.headOid] at hHead
  simp only [Repository.findCommit] at hPC
  simp [mergingPhase, Repository.logMsg, Repository.headOid, Repository.findCommit,
    Index.has_conflicts, hHead, hPC, hConf]

/-- mergingPhase when the commit-object write (which also re-points the head
branch) fails: the failure is surfaced as an error, with no fallback. -/
theorem mergingPhase_commitFail_spec (repo : Repository) (remoteOid h : Oid)
    (pc rc : Commit)
    (hHead : repo.headOid = some h)
    (hPC : repo.findCommit h = some pc)
    (hRC : repo.findCommit remoteOid = some rc)
    (hNoConf : repo.mergedIndex.conflicts = [])
    (hDelta : (pc.tree == repo.mergedIndex.tree) = false)
    (hCW : repo.failCommitWrite = true) :
    (mergingPhase repo remoteOid).2 = Except.error commitWriteErr := by
  simp only [Repository.headOid] at hHead
  simp only [Repository.findCommit] at hPC hRC
  simp [mergingPhase, Repository.logMsg, Repository.headOid, Repository.findCommit,
    Repository.writeTree, Repository.doCommit, Index.has_conflicts,
    hHead, hPC, hRC, hNoConf, hDelta, hCW]

/-- pull, after a successful fetch, when the fetched tracking commit is not
already contained in local history (not UP_TO_DATE): both remaining
classifications (FASTFORWARD and NORMAL) continue into the merging branch. -/
theorem pull_reaches_merging (repo : Repository) (branch : String) (r h : Oid)
    (hOrigin : repo.originExists = true)
    (hFetch : repo.failFetch = false)
    (hServer : lookupAssoc repo.serverBranches branch = some r)
    (hHead : lookupAssoc (setAssoc repo.refs (remoteRefName branch) r)
      repo.headRef = some h)
    (hNotUtd : isAncestorOf repo.commits r h = false) :
    pull repo branch =
      mergingPhase
        { repo with
            refs := setAssoc repo.refs (remoteRefName branch) r
            log := repo.log ++ [LogLine.msg msgStartingPull] } r := by
  by_cases hFF : isAncestorOf repo.commits h r = true
  · simp [pull, getRemote, Repository.logMsg, Repository.headOid,
      Repository.mergeAnalysisFor, lookupAssoc_set_self,
      hOrigin, hFetch, hServer, hHead, hNotUtd, hFF]
  · simp only [Bool.not_eq_true] at hFF
    simp [pull, getRemote, Repository.logMsg, Repository.headOid,
      Repository.mergeAnalysisFor, lookupAssoc_set_self,
      hOrigin, hFetch, hServer, hHead, hNotUtd, hFF]

/-- commit when HEAD does not resolve to a reference: the failure of
repo.head() propagates. -/
theorem commit_noHead_spec (repo : Repository)
    (hHead : repo.headOid = none) :
    (commit repo).2 = Except.error refNotFoundErr := by
  simp only [Repository.headOid] at hHead
  simp [commit, Repository.logMsg, Repository.headOid, hHead]

/-- commit when the staged tree equals the head commit's tree: the empty diff
is reported and nothing but the staging area and the log changes. -/
theorem commit_noChanges_spec (repo : Repository) (h : Oid) (pc : Commit)
    (hHead : repo.headOid = some h)
    (hPC : repo.findCommit h = some pc)
    (hEq : (pc.tree == repo.workTreeId) = true) :
    commit repo =
      ({ repo with
          index := { repo.index with tree := repo.workTreeId }
          log := repo.log ++ [LogLine.msg msgStartingCommit, LogLine.msg msgEmptyTree] },
        Except.ok ()) := by
  simp only [Repository.headOid] at hHead
  simp only [Repository.findCommit] at hPC
  simp [commit, Repository.logMsg, Repository.headOid, Repository.findCommit,
    hHead, hPC, hEq]

/-- commit on a non-empty diff with a healthy object store: writes the staged
tree, creates the "sync" commit whose sole parent is the previous head,
re-points the head branch at it, and persists the index. -/
theorem commit_created_spec (repo : Repository) (h : Oid) (pc : Commit)
    (hHead : repo.headOid = some h)
    (hPC : repo.findCommit h = some pc)
    (hNe : (pc.tree == repo.workTreeId) = false)
    (hNoConf : repo.index.conflicts.isEmpty = true)
    (hCW : repo.failCommitWrite = false)
    (hIW : repo.failIndexWrite = false) :
    commit repo =
      ({ repo with
          index := { repo.index with tree := repo.workTreeId }
          commits := repo.commits ++
            [{ oid := repo.nextOid, parents := [pc.oid],
               tree := repo.workTreeId, message := msgSync }]
          refs := setAssoc repo.refs repo.headRef repo.nextOid
          nextOid := repo.nextOid + 1
          log := repo.log ++ [LogLine.msg msgStartingCommit, LogLine.commitOid repo.nextOid] },
        Except.ok ()) := by
  simp only [Repository.headOid] at hHead
  simp only [Repository.findCommit] at hPC
  simp [commit, Repository.logMsg, Repository.headOid, Repository.findCommit,
    Repository.writeTree, Repository.doCommit, Repository.indexWrite,
    hHead, hPC, hNe, hNoConf, hCW, hIW]

/-- commit when the index cannot write a tree (conflicted index): the failure
propagates before any commit is created. -/
theorem commit_writeTreeFail_spec (repo : Repository) (h : Oid) (pc : Commit)
    (hHead : repo.headOid = some h)
    (hPC : repo.findCommit h = some pc)
    (hNe : (pc.tree == repo.workTreeId) = false)
    (hConf : repo.index.conflicts.isEmpty = false) :
    (commit repo).2 = Except.error conflictedIndexErr := by
  simp only [Repository.headOid] at hHead
  simp only [Repository.findCommit] at hPC
  simp [commit, Repository.logMsg, Repository.headOid, Repository.findCommit,
    Repository.writeTree, hHead, hPC, hNe, hConf]

/-- commit when the commit-object write fails: the failure propagates and
neither the object store nor the refs change. -/
theorem commit_commitFail_spec (repo : Repository) (h : Oid) (pc : Commit)
    (hHead : repo.headOid = some h)
    (hPC : repo.findCommit h = some pc)
    (hNe : (pc.tree == repo.workTreeId) = false)
    (hNoConf : repo.index.conflicts.isEmpty = true)
    (hCW : repo.failCommitWrite = true) :
    (commit repo).2 = Except.error commitWriteErr ∧
    (commit repo).1.commits = repo.commits ∧
    (commit repo).1.refs = repo.refs := by
  simp only [Repository.headOid] at hHead
  simp only [Repository.findCommit] at hPC
  simp [commit, Repository.logMsg, Repository.headOid, Repository.findCommit,
    Repository.writeTree, Repository.doCommit, hHead, hPC, hNe, hNoConf, hCW]

/-- commit when only the final index write fails: the error is returned even
though the "sync" commit was already created and the head branch already
re-pointed at it. -/
theorem commit_indexWriteFail_spec (repo : Repository) (h : Oid) (pc : Commit)
    (hHead : repo.headOid = some h)
    (hPC : repo.findCommit h = some pc)
    (hNe : (pc.tree == repo.workTreeId) = false)
    (hNoConf : repo.index.conflicts.isEmpty = true)
    (hCW : repo.failCommitWrite = false)
    (hIW : repo.failIndexWrite = true) :
    commit repo =
      ({ repo with
          index := { repo.index with tree := repo.workTreeId }
          commits := repo.commits ++
            [{ oid := repo.nextOid, parents := [pc.oid],
               tree := repo.workTreeId, message := msgSync }]
          refs := setAssoc repo.refs repo.headRef repo.nextOid
          nextOid := repo.nextOid + 1
          log := repo.log ++ [LogLine.msg msgStartingCommit, LogLine.commitOid repo.nextOid] },
        Except.error indexWriteErr) := by
  simp only [Repository.headOid] at hHead
  simp only [Repository.findCommit] at hPC
  simp [commit, Repository.logMsg, Repository.headOid, Repository.findCommit,
    Repository.writeTree, Repository.doCommit, Repository.indexWrite,
    hHead, hPC, hNe, hNoConf, hCW, hIW]

/-- Appending a commit whose oid is fresh: looking it up finds it. -/
theorem findCommit_append_fresh (commits : List Commit) (c : Commit)
    (h : ∀ d ∈ commits, d.oid ≠ c.oid) :
    (commits ++ [c]).find? (fun d => d.oid == c.oid) = some c := by
  induction commits with
  | nil => simp
  | cons a as ih =>
    have ha : (a.oid == c.oid) = false := by
      simpa using h a (by simp)
    simp only [List.cons_append, List.find?_cons, ha]
    exact ih (fun d hd => h d (by simp [hd]))

/-- commit when the head reference's target is not a commit in the object
store: the peel failure propagates. -/
theorem commit_noParent_spec (repo : Repository) (h : Oid)
    (hHead : repo.headOid = some h)
    (hPC : repo.findCommit h = none) :
    (commit repo).2 = Except.error objectNotFoundErr := by
  simp only [Repository.headOid] at hHead
  simp only [Repository.findCommit] at hPC
  simp [commit, Repository.logMsg, Repository.headOid, Repository.findCommit,
    hHead, hPC]

/-- Claim C1 (counterexample): in ffRepo the local head (commit 1) is a
strict ancestor of the fetched tracking commit (commit 2), so the merge
classification is FastForward, yet the Integration Engine does NOT advance
the branch pointer to the tracking reference's commit and DOES create a merge
commit: the head branch ends at the new commit 3, whose parent list [1, 2]
is that of a two-parent merge commit. -/
theorem C1_fastForward_counterexample :
    isAncestorOf ffRepo.commits 1 2 = true ∧
    isAncestorOf ffRepo.commits 2 1 = false ∧
    (pull ffRepo mainBranch).2 = Except.ok () ∧
    lookupAssoc (pull ffRepo mainBranch).1.refs ffRepo.headRef ≠ some 2 ∧
    (pull ffRepo mainBranch).1.commits.map (fun c => c.parents) =
      [[], [1], [1, 2]] :=
  ⟨rfl, rfl, rfl, by decide, rfl⟩

/-- Claim C1 (amended): for every repository whose local head is a strict
ancestor of the fetched tracking reference (FastForward classification), with
the merge driver yielding a conflict-free result whose tree differs from the
head's, the Integration Engine runs the same three-way merge path as Normal:
it creates a commit with message "merge" and two parents (prior head first,
tracking commit second), advances the local branch to that NEW commit — not
to the tracking reference's commit — and clears merge state. -/
theorem C1_fastForward_merges (repo : Repository) (branch : String)
    (r h : Oid) (pc rc : Commit)
    (hOrigin : repo.originExists = true)
    (hFetch : repo.failFetch = false)
    (hServer : lookupAssoc repo.serverBranches branch = some r)
    (hHead : lookupAssoc (setAssoc repo.refs (remoteRefName branch) r)
      repo.headRef = some h)
    (hNotUtd : isAncestorOf repo.commits r h = false)
    (_hFF : isAncestorOf repo.commits h r = true)
    (hPC : repo.findCommit h = some pc)
    (hRC : repo.findCommit r = some rc)
    (hNoConf : repo.mergedIndex.conflicts = [])
    (hDelta : (pc.tree == repo.mergedIndex.tree) = false)
    (hCW : repo.failCommitWrite = false) :
    (pull repo branch).2 = Except.ok () ∧
    (pull repo branch).1.commits = repo.commits ++
      [{ oid := repo.nextOid, parents := [pc.oid, rc.oid],
         tree := repo.mergedIndex.tree, message := msgMerge }] ∧
    lookupAssoc (pull repo branch).1.refs repo.headRef = some repo.nextOid ∧
    (pull repo branch).1.mergeStatePresent = false := by
  rw [pull_reaches_merging repo branch r h hOrigin hFetch hServer hHead hNotUtd]
  rw [mergingPhase_commit_spec _ r h pc rc
    (by simp only [Repository.headOid] at hHead ⊢; simpa using hHead)
    (by simp only [Repository.findCommit] at hPC ⊢; simpa using hPC)
    (by simp only [Repository.findCommit] at hRC ⊢; simpa using hRC)
    (by simpa using hNoConf)
    (by simpa using hDelta)
    (by simpa using hCW)]
  exact ⟨rfl, rfl, lookupAssoc_set_self _ _ _, rfl⟩

/-- Witness for C1_fastForward_merges at the concrete ffRepo scenario. -/
theorem C1_fastForward_merges_witness :
    ffRepo.originExists = true ∧
    ffRepo.failFetch = false ∧
    lookupAssoc ffRepo.serverBranches mainBranch = some 2 ∧
    lookupAssoc (setAssoc ffRepo.refs (remoteRefName mainBranch) 2)
      ffRepo.headRef = some 1 ∧
    isAncestorOf ffRepo.commits 2 1 = false ∧
    isAncestorOf ffRepo.commits 1 2 = true ∧
    ffRepo.findCommit 1 = some rootCommit ∧
    ffRepo.findCommit 2 = some remoteChildCommit ∧
    ffRepo.mergedIndex.conflicts = [] ∧
    (rootCommit.tree == ffRepo.mergedIndex.tree) = false ∧
    ffRepo.failCommitWrite = false ∧
    ((pull ffRepo mainBranch).2 = Except.ok () ∧
     (pull ffRepo mainBranch).1.commits = ffRepo.commits ++
       [{ oid := ffRepo.nextOid, parents := [rootCommit.oid, remoteChildCommit.oid],
          tree := ffRepo.mergedIndex.tree, message := msgMerge }] ∧
     lookupAssoc (pull ffRepo mainBranch).1.refs ffRepo.headRef =
       some ffRepo.nextOid ∧
     (pull ffRepo mainBranch).1.mergeStatePresent = false) :=
  ⟨rfl, rfl, rfl, rfl, rfl, rfl, rfl, rfl, rfl, rfl, rfl,
   C1_fastForward_merges ffRepo mainBranch 2 1 rootCommit remoteChildCommit
     rfl rfl rfl rfl rfl rfl rfl rfl rfl rfl rfl⟩

/-- Claim C5: for every Normal merge with diverged histories (neither head is
an ancestor of the other) whose merge result has no conflicts and a tree
differing from the pre-merge head's, the Integration Engine creates a merge
commit with exactly two parents — the prior local head first and the remote
tracking commit second — with message "merge", advances the branch to it, and
clears the in-progress merge state. -/
theorem C5_normal_merge_two_parents (repo : Repository) (branch : String)
    (r h : Oid) (pc rc : Commit)
    (hOrigin : repo.originExists = true)
    (hFetch : repo.failFetch = false)
    (hServer : lookupAssoc repo.serverBranches branch = some r)
    (hHead : lookupAssoc (setAssoc repo.refs (remoteRefName branch) r)
      repo.headRef = some h)
    (hNotUtd : isAncestorOf repo.commits r h = false)
    (_hNotFF : isAncestorOf repo.commits h r = false)
    (hPC : repo.findCommit h = some pc)
    (hRC : repo.findCommit r = some rc)
    (hNoConf : repo.mergedIndex.conflicts = [])
    (hDelta : (pc.tree == repo.mergedIndex.tree) = false)
    (hCW : repo.failCommitWrite = false) :
    (pull repo branch).2 = Except.ok () ∧
    (pull repo branch).1.commits = repo.commits ++
      [{ oid := repo.nextOid, parents := [pc.oid, rc.oid],
         tree := repo.mergedIndex.tree, message := msgMerge }] ∧
    lookupAssoc (pull repo branch).1.refs repo.headRef = some repo.nextOid ∧
    (pull repo branch).1.mergeStatePresent = false := by
  rw [pull_reaches_merging repo branch r h hOrigin hFetch hServer hHead hNotUtd]
  rw [mergingPhase_commit_spec _ r h pc rc
    (by simp only [Repository.headOid] at hHead ⊢; simpa using hHead)
    (by simp only [Repository.findCommit] at hPC ⊢; simpa using hPC)
    (by simp only [Repository.findCommit] at hRC ⊢; simpa using hRC)
    (by simpa using hNoConf)
    (by simpa using hDelta)
    (by simpa using hCW)]
  exact ⟨rfl, rfl, lookupAssoc_set_self _ _ _, rfl⟩

/-- Witness for C5_normal_merge_two_parents at the concrete divergedRepo
scenario (local 2 and remote 3 are siblings over the root 1). -/
theorem C5_normal_merge_two_parents_witness :
    divergedRepo.originExists = true ∧
    divergedRepo.failFetch = false ∧
    lookupAssoc divergedRepo.serverBranches mainBranch = some 3 ∧
    lookupAssoc (setAssoc divergedRepo.refs (remoteRefName mainBranch) 3)
      divergedRepo.headRef = some 2 ∧
    isAncestorOf divergedRepo.commits 3 2 = false ∧
    isAncestorOf divergedRepo.commits 2 3 = false ∧
    divergedRepo.findCommit 2 = some localChildCommit ∧
    divergedRepo.findCommit 3 = some remoteSiblingCommit ∧
    divergedRepo.mergedIndex.conflicts = [] ∧
    (localChildCommit.tree == divergedRepo.mergedIndex.tree) = false ∧
    divergedRepo.failCommitWrite = false ∧
    ((pull divergedRepo mainBranch).2 = Except.ok () ∧
     (pull divergedRepo mainBranch).1.commits = divergedRepo.commits ++
       [{ oid := divergedRepo.nextOid,
          parents := [localChildCommit.oid, remoteSiblingCommit.oid],
          tree := divergedRepo.mergedIndex.tree, message := msgMerge }] ∧
     lookupAssoc (pull divergedRepo mainBranch).1.refs divergedRepo.headRef =
       some divergedRepo.nextOid ∧
     (pull divergedRepo mainBranch).1.mergeStatePresent = false) :=
  ⟨rfl, rfl, rfl, rfl, rfl, rfl, rfl, rfl, rfl, rfl, rfl,
   C5_normal_merge_two_parents divergedRepo mainBranch 3 2
     localChildCommit remoteSiblingCommit
     rfl rfl rfl rfl rfl rfl rfl rfl rfl rfl rfl⟩

/-- Claim C4: for every Normal three-way merge (diverged histories) whose
merge result has a non-empty conflict set, the Integration Engine fails with
the conflicts-found error, reports exactly the conflicting paths of the
staging area in order (each derived from the conflict's theirs entry, with
the no-conflict sentinel when that entry is absent and the invalid-path
sentinel when its bytes are not valid UTF-8), creates no commit, and leaves
the in-progress merge state on the repository. -/
theorem C4_conflicts_detected (repo : Repository) (branch : String)
    (r h : Oid) (pc : Commit)
    (hOrigin : repo.originExists = true)
    (hFetch : repo.failFetch = false)
    (hServer : lookupAssoc repo.serverBranches branch = some r)
    (hHead : lookupAssoc (setAssoc repo.refs (remoteRefName branch) r)
      repo.headRef = some h)
    (hNotUtd : isAncestorOf repo.commits r h = false)
    (_hNotFF : isAncestorOf repo.commits h r = false)
    (hPC : repo.findCommit h = some pc)
    (hConf : repo.mergedIndex.conflicts.isEmpty = false) :
    (pull repo branch).2 = Except.error conflictsFoundErr ∧
    (pull repo branch).1.log = repo.log ++
      [LogLine.msg msgStartingPull, LogLine.msg msgMerging] ++
      repo.mergedIndex.conflicts.map
        (fun c => LogLine.conflictPath (conflictOutBytes c)) ∧
    (pull repo branch).1.commits = repo.commits ∧
    (pull repo branch).1.mergeStatePresent = true := by
  rw [pull_reaches_merging repo branch r h hOrigin hFetch hServer hHead hNotUtd]
  rw [mergingPhase_conflicts_spec _ r h pc
    (by simp only [Repository.headOid] at hHead ⊢; simpa using hHead)
    (by simp only [Repository.findCommit] at hPC ⊢; simpa using hPC)
    (by simpa using hConf)]
  exact ⟨rfl, by simp, rfl, rfl⟩

/-- Witness for C4_conflicts_detected at the concrete conflictRepo scenario,
whose three conflicts exercise the theirs path, the missing-theirs sentinel
and the invalid-bytes sentinel. -/
theorem C4_conflicts_detected_witness :
    conflictRepo.originExists = true ∧
    conflictRepo.failFetch = false ∧
    lookupAssoc conflictRepo.serverBranches mainBranch = some 3 ∧
    lookupAssoc (setAssoc conflictRepo.refs (remoteRefName mainBranch) 3)
      conflictRepo.headRef = some 2 ∧
    isAncestorOf conflictRepo.commits 3 2 = false ∧
    isAncestorOf conflictRepo.commits 2 3 = false ∧
    conflictRepo.findCommit 2 = some localChildCommit ∧
    conflictRepo.mergedIndex.conflicts.isEmpty = false ∧
    ((pull conflictRepo mainBranch).2 = Except.error conflictsFoundErr ∧
     (pull conflictRepo mainBranch).1.log = conflictRepo.log ++
       [LogLine.msg msgStartingPull, LogLine.msg msgMerging] ++
       conflictRepo.mergedIndex.conflicts.map
         (fun c => LogLine.conflictPath (conflictOutBytes c)) ∧
     (pull conflictRepo mainBranch).1.commits = conflictRepo.commits ∧
     (pull conflictRepo mainBranch).1.mergeStatePresent = true) :=
  ⟨rfl, rfl, rfl, rfl, rfl, rfl, rfl, rfl,
   C4_conflicts_detected conflictRepo mainBranch 3 2 localChildCommit
     rfl rfl rfl rfl rfl rfl rfl rfl⟩

/-- Claim C7 (counterexample): in the fast-forward situation ffFailRepo the
write that would create the merge commit and re-point the branch fails, and
pull surfaces that failure as an Error — there is no fall back to
creating/re-pointing the branch from the remote's annotated commit. -/
theorem C7_pointer_update_failure_errors :
    isAncestorOf ffFailRepo.commits 1 2 = true ∧
    isAncestorOf ffFailRepo.commits 2 1 = false ∧
    (pull ffFailRepo mainBranch).2 = Except.error commitWriteErr :=
  ⟨rfl, rfl, rfl⟩

/-- Claim C7 (amended): during FastForward integration the branch update
happens only inside the merge-commit creation call, and for every repository
in that situation a failure of that call is surfaced as an Error — the
engine has no branch-recreation fallback. -/
theorem C7_no_fallback (repo : Repository) (branch : String)
    (r h : Oid) (pc rc : Commit)
    (hOrigin : repo.originExists = true)
    (hFetch : repo.failFetch = false)
    (hServer : lookupAssoc repo.serverBranches branch = some r)
    (hHead : lookupAssoc (setAssoc repo.refs (remoteRefName branch) r)
      repo.headRef = some h)
    (hNotUtd : isAncestorOf repo.commits r h = false)
    (_hFF : isAncestorOf repo.commits h r = true)
    (hPC : repo.findCommit h = some pc)
    (hRC : repo.findCommit r = some rc)
    (hNoConf : repo.mergedIndex.conflicts = [])
    (hDelta : (pc.tree == repo.mergedIndex.tree) = false)
    (hCW : repo.failCommitWrite = true) :
    (pull repo branch).2 = Except.error commitWriteErr := by
  rw [pull_reaches_merging repo branch r h hOrigin hFetch hServer hHead hNotUtd]
  exact mergingPhase_commitFail_spec _ r h pc rc
    (by simp only [Repository.headOid] at hHead ⊢; simpa using hHead)
    (by simp only [Repository.findCommit] at hPC ⊢; simpa using hPC)
    (by simp only [Repository.findCommit] at hRC ⊢; simpa using hRC)
    (by simpa using hNoConf)
    (by simpa using hDelta)
    (by simpa using hCW)

/-- Witness for C7_no_fallback at the concrete ffFailRepo scenario. -/
theorem C7_no_fallback_witness :
    ffFailRepo.originExists = true ∧
    ffFailRepo.failFetch = false ∧
    lookupAssoc ffFailRepo.serverBranches mainBranch = some 2 ∧
    lookupAssoc (setAssoc ffFailRepo.refs (remoteRefName mainBranch) 2)
      ffFailRepo.headRef = some 1 ∧
    isAncestorOf ffFailRepo.commits 2 1 = false ∧
    isAncestorOf ffFailRepo.commits 1 2 = true ∧
    ffFailRepo.findCommit 1 = some rootCommit ∧
    ffFailRepo.findCommit 2 = some remoteChildCommit ∧
    ffFailRepo.mergedIndex.conflicts = [] ∧
    (rootCommit.tree == ffFailRepo.mergedIndex.tree) = false ∧
    ffFailRepo.failCommitWrite = true ∧
    (pull ffFailRepo mainBranch).2 = Except.error commitWriteErr :=
  ⟨rfl, rfl, rfl, rfl, rfl, rfl, rfl, rfl, rfl, rfl, rfl,
   C7_no_fallback ffFailRepo mainBranch 2 1 rootCommit remoteChildCommit
     rfl rfl rfl rfl rfl rfl rfl rfl rfl rfl rfl⟩

/-- Claim C3 (counterexample): in pushCexRepo the server reports a non-empty
(rejection) status for the pushed reference, yet push returns success — the
push_update_reference callback only prints the status and returns Ok, so a
non-empty status is NOT surfaced as a push failure. -/
theorem C3_nonempty_status_not_error :
    pushCexRepo.pushStatuses = [(mainHeadRef, some nonFastForwardStatus)] ∧
    (push pushCexRepo mainBranch).2 = Except.ok () :=
  ⟨rfl, rfl⟩

/-- Claim C3 (amended): for every push whose transport call succeeds, the
Publisher reports each updated remote reference's name and status in the log
and returns success regardless of those statuses; only a failure of the push
call itself is an Error. -/
theorem C3_push_ignores_statuses (repo : Repository) (branch : String)
    (hOrigin : repo.originExists = true)
    (hPush : repo.failPush = false) :
    (push repo branch).2 = Except.ok () ∧
    (push repo branch).1.log = repo.log ++ [LogLine.msg msgStartingPush] ++
      repo.pushStatuses.map (fun p => LogLine.refPushed p.1 p.2) := by
  simp [push, getRemote, Repository.logMsg, hOrigin, hPush]

/-- Witness for C3_push_ignores_statuses at the concrete pushCexRepo, whose
single pushed reference carries a non-empty status. -/
theorem C3_push_ignores_statuses_witness :
    pushCexRepo.originExists = true ∧
    pushCexRepo.failPush = false ∧
    ((push pushCexRepo mainBranch).2 = Except.ok () ∧
     (push pushCexRepo mainBranch).1.log = pushCexRepo.log ++
       [LogLine.msg msgStartingPush] ++
       pushCexRepo.pushStatuses.map (fun p => LogLine.refPushed p.1 p.2)) :=
  ⟨rfl, rfl, C3_push_ignores_statuses pushCexRepo mainBranch rfl rfl⟩

/-- Claim C2 (code bug): with interval_minutes = 1 the interval is 60000 ms,
so the deadline the specification describes (half the interval) is 30000 ms;
but the code passes interval_ms / 2 — a count of milliseconds — to
Duration::from_secs, making the actual deadline 30000 seconds, i.e.
30000000 ms: 1000 times half the interval, so an attempt is NOT bounded by
half the configured interval. -/
theorem C2_deadline_not_half_interval :
    interval_ms 1 = 60000 ∧
    halfIntervalMillis 1 = 30000 ∧
    attemptDeadlineMillis 1 = 30000000 ∧
    attemptDeadlineMillis 1 = 1000 * halfIntervalMillis 1 ∧
    attemptDeadlineMillis 1 ≠ halfIntervalMillis 1 := by
  refine ⟨by decide, by decide, by decide, by decide, by decide⟩

/-- Claim C6 (code bug): the failure-alert side effect tolerates only a
failing current_dir; a missing/unopenable sound asset, a missing default
audio output device, or a failing decoder each hit an unwrap and panic the
process instead of being ignored — so an alert failure does fail the attempt
(and the daemon), contrary to the stated requirement. -/
theorem C6_alert_failure_panics :
    playFailureAlert (AlertEnv.mk true false true true) =
      AlertFate.panicked stepFileOpenUnwrap ∧
    playFailureAlert (AlertEnv.mk true true false true) =
      AlertFate.panicked stepOutputDeviceUnwrap ∧
    playFailureAlert (AlertEnv.mk true true true false) =
      AlertFate.panicked stepDecoderUnwrap ∧
    playFailureAlert (AlertEnv.mk false false false false) = AlertFate.handled :=
  ⟨rfl, rfl, rfl, rfl⟩

/-- Claim C9: the scheduler interval is interval_minutes * 1000 * 60 in u32
arithmetic, so for every configuration with interval_minutes above 71582 the
effective interval is the mathematical product reduced mod 2^32 — strictly
different from the true number of milliseconds — and the derived deadline is
computed from that reduced value. -/
theorem C9_interval_u32_wraps (m : Nat) (_hm : m < u32Mod) (hbig : 71582 < m) :
    interval_ms m = m * 60000 % u32Mod ∧
    interval_ms m ≠ m * 60000 ∧
    attemptDeadlineSecs m = m * 60000 % u32Mod / 2 := by
  have h1 : interval_ms m = m * 60000 % u32Mod := by
    unfold interval_ms
    rw [Nat.mod_mul_mod, Nat.mul_assoc]
  have hle : u32Mod ≤ m * 60000 := by
    calc u32Mod ≤ 71583 * 60000 := by norm_num [u32Mod]
    _ ≤ m * 60000 := Nat.mul_le_mul_right _ (by omega)
  have hlt : m * 60000 % u32Mod < u32Mod := Nat.mod_lt _ (by norm_num [u32Mod])
  refine ⟨h1, by omega, ?_⟩
  unfold attemptDeadlineSecs
  rw [h1]

/-- Witness for C9_interval_u32_wraps at the smallest wrapping configuration,
interval_minutes = 71583. -/
theorem C9_interval_u32_wraps_witness :
    71583 < u32Mod ∧ 71582 < 71583 ∧
    (interval_ms 71583 = 71583 * 60000 % u32Mod ∧
     interval_ms 71583 ≠ 71583 * 60000 ∧
     attemptDeadlineSecs 71583 = 71583 * 60000 % u32Mod / 2) :=
  ⟨by norm_num [u32Mod], by norm_num,
   C9_interval_u32_wraps 71583 (by norm_num [u32Mod]) (by norm_num)⟩

/-- Claim C10: the Snapshot Committer performs its final index write only
after the "sync" commit exists and the branch has moved; when that write
fails it returns an Error even though the new commit is already in the
object store and the head branch already points at it. -/
theorem C10_commit_error_after_mutation (repo : Repository) (h : Oid)
    (pc : Commit)
    (hHead : repo.headOid = some h)
    (hPC : repo.findCommit h = some pc)
    (hNe : (pc.tree == repo.workTreeId) = false)
    (hNoConf : repo.index.conflicts.isEmpty = true)
    (hCW : repo.failCommitWrite = false)
    (hIW : repo.failIndexWrite = true) :
    (commit repo).2 = Except.error indexWriteErr ∧
    (commit repo).1.commits = repo.commits ++
      [{ oid := repo.nextOid, parents := [pc.oid],
         tree := repo.workTreeId, message := msgSync }] ∧
    lookupAssoc (commit repo).1.refs repo.headRef = some repo.nextOid := by
  rw [commit_indexWriteFail_spec repo h pc hHead hPC hNe hNoConf hCW hIW]
  exact ⟨rfl, rfl, lookupAssoc_set_self _ _ _⟩

/-- Witness for C10_commit_error_after_mutation at the concrete
snapIndexFailRepo scenario. -/
theorem C10_commit_error_after_mutation_witness :
    snapIndexFailRepo.headOid = some 1 ∧
    snapIndexFailRepo.findCommit 1 = some rootCommit ∧
    (rootCommit.tree == snapIndexFailRepo.workTreeId) = false ∧
    snapIndexFailRepo.index.conflicts.isEmpty = true ∧
    snapIndexFailRepo.failCommitWrite = false ∧
    snapIndexFailRepo.failIndexWrite = true ∧
    ((commit snapIndexFailRepo).2 = Except.error indexWriteErr ∧
     (commit snapIndexFailRepo).1.commits = snapIndexFailRepo.commits ++
       [{ oid := snapIndexFailRepo.nextOid, parents := [rootCommit.oid],
          tree := snapIndexFailRepo.workTreeId, message := msgSync }] ∧
     lookupAssoc (commit snapIndexFailRepo).1.refs snapIndexFailRepo.headRef =
       some snapIndexFailRepo.nextOid) :=
  ⟨rfl, rfl, rfl, rfl, rfl, rfl,
   C10_commit_error_after_mutation snapIndexFailRepo 1 rootCommit
     rfl rfl rfl rfl rfl rfl⟩

/-- Claim C8: round-trip idempotence of the Snapshot Committer — for every
repository (with fresh commit oids) on which commit just succeeded, running
commit again with the working tree unchanged reports the empty diff
(NoChanges): it returns success, creates no commit, and leaves every branch
pointer unchanged. -/
theorem C8_snapshot_committer_idempotent (repo : Repository)
    (hFresh : ∀ c ∈ repo.commits, c.oid < repo.nextOid)
    (hOk : (commit repo).2 = Except.ok ()) :
    (commit (commit repo).1).2 = Except.ok () ∧
    (commit (commit repo).1).1.commits = (commit repo).1.commits ∧
    (commit (commit repo).1).1.refs = (commit repo).1.refs ∧
    (commit (commit repo).1).1.log = (commit repo).1.log ++
      [LogLine.msg msgStartingCommit, LogLine.msg msgEmptyTree] := by
  cases hh : repo.headOid with
  | none =>
    rw [commit_noHead_spec repo hh] at hOk
    simp at hOk
  | some h =>
    cases hc : repo.findCommit h with
    | none =>
      rw [commit_noParent_spec repo h hh hc] at hOk
      simp at hOk
    | some pc =>
      cases heq : pc.tree == repo.workTreeId with
      | true =>
        rw [commit_noChanges_spec repo h pc hh hc heq]
        rw [commit_noChanges_spec _ h pc
          (by simp only [Repository.headOid] at hh ⊢; simpa using hh)
          (by simp only [Repository.findCommit] at hc ⊢; simpa using hc)
          (by simpa using heq)]
        exact ⟨rfl, rfl, rfl, rfl⟩
      | false =>
        cases hconf : repo.index.conflicts.isEmpty with
        | false =>
          rw [commit_writeTreeFail_spec repo h pc hh hc heq hconf] at hOk
          simp at hOk
        | true =>
          cases hcw : repo.failCommitWrite with
          | true =>
            rw [(commit_commitFail_spec repo h pc hh hc heq hconf hcw).1] at hOk
            simp at hOk
          | false =>
            cases hiw : repo.failIndexWrite with
            | true =>
              rw [commit_indexWriteFail_spec repo h pc hh hc heq hconf hcw hiw] at hOk
              simp at hOk
            | false =>
              rw [commit_created_spec repo h pc hh hc heq hconf hcw hiw]
              rw [commit_noChanges_spec _ repo.nextOid
                { oid := repo.nextOid, parents := [pc.oid],
                  tree := repo.workTreeId, message := msgSync }
                ?hh2 ?hc2 ?heq2]
              · exact ⟨rfl, rfl, rfl, rfl⟩
              case hh2 =>
                simp only [Repository.headOid]
                simpa using lookupAssoc_set_self repo.refs repo.headRef repo.nextOid
              case hc2 =>
                simp only [Repository.findCommit]
                simpa using findCommit_append_fresh repo.commits
                  { oid := repo.nextOid, parents := [pc.oid],
                    tree := repo.workTreeId, message := msgSync }
                  (fun d hd => Nat.ne_of_lt (hFresh d hd))
              case heq2 => simp

/-- Witness for C8_snapshot_committer_idempotent at the concrete snapRepo
scenario, whose working tree (tree 20) differs from the head commit's tree
(tree 10), so the first run creates a "sync" commit. -/
theorem C8_snapshot_committer_idempotent_witness :
    (∀ c ∈ snapRepo.commits, c.oid < snapRepo.nextOid) ∧
    (commit snapRepo).2 = Except.ok () ∧
    ((commit (commit snapRepo).1).2 = Except.ok () ∧
     (commit (commit snapRepo).1).1.commits = (commit snapRepo).1.commits ∧
     (commit (commit snapRepo).1).1.refs = (commit snapRepo).1.refs ∧
     (commit (commit snapRepo).1).1.log = (commit snapRepo).1.log ++
       [LogLine.msg msgStartingCommit, LogLine.msg msgEmptyTree]) :=
  ⟨by decide, rfl,
   C8_snapshot_committer_idempotent snapRepo (by decide) rfl⟩
